import Mathlib

/-!
Shallow embedding of `src/lib/utils/webpack.config.js`: the webpack build
configuration composer of the gatsby repository. The module exports a single
function taking program settings, a directory, a stage token, a dev-server
port and a list of pages, and returns a webpack configuration object, or
throws for an unknown stage or for an override hook returning a non-object.

External collaborators (the site configuration database, the page registry,
the process environment, the chunk-name mangler from js-chunk-names, the
directory of the config module itself, and the optional gatsby-node override
hook) are passed in as an explicit read-only snapshot `Externals`.
-/

namespace GatsbyWebpack

/-- Caller-supplied program settings: dev-server host and the
link-prefixing flag (`program.host`, `program.prefixLinks`). -/
structure Program where
  host : String
  prefixLinks : Bool
deriving Repr, DecidableEq

/-- A page descriptor: a route plus the path of its component module. -/
structure Page where
  route : String
  component : String
deriving Repr, DecidableEq

/-- Modelled from the spec: the babel configuration built by the external
babel-config module (that module is not under src/; only its call site is).
The spec says the develop-html stage must compile without the live-reload
(react-hmre) wiring while develop includes it; we record the arguments the
call site passes (the program and the unnormalized babel stage) and that
flag. -/
structure BabelQuery where
  program : Program
  stage : String
  reactHmre : Bool
deriving Repr, DecidableEq

/-- Modelled from the spec: `babelConfig(program, babelStage)` as used at the
js-loader call site; react-hmre (live-reload wiring) is included exactly for
the plain develop stage. -/
def babelConfig (program : Program) (babelStage : String) : BabelQuery :=
  { program := program, stage := babelStage, reactHmre := babelStage == "develop" }

/-- The loader part of one webpack-configurator rule: a bare loader string, a
loader chain, a babel loader with its query, or an ExtractTextPlugin.extract
wrapper (with or without a fallback loader). -/
inductive LoaderSpec where
  | single (l : String)
  | chain (ls : List String)
  | babel (l : String) (q : BabelQuery)
  | extractNoFallback (ls : List String)
  | extractFallback (fallback : String) (ls : List String)
deriving Repr, DecidableEq

/-- One named rule registered through `config.loader(name, {...})`. -/
structure LoaderRule where
  name : String
  test : String
  excludeTest : Option String
  spec : LoaderSpec
deriving Repr, DecidableEq

/-- The value of one named entry: a single module or an ordered list. -/
inductive EntryValue where
  | one (m : String)
  | many (ms : List String)
deriving Repr, DecidableEq

/-- The plugins the composer instantiates, with the parameters it passes. -/
inductive Plugin where
  | occurenceOrder
  | hotModuleReplacement
  | noErrors
  | define (nodeEnv : String) (prefixLinks : Bool) (linkPrefixStr : String)
  | extractText (filename : String)
  | staticSiteGenerator (filename : String) (pages : List Page)
  | ignoreMomentLocale
  | md5Hash
  | dedupe
  | commonsChunk (name : String) (chunks : List String) (minChunks : Nat)
  | offline (publicPath : String)
  | uglify
  | statsWriter
deriving Repr, DecidableEq

/-- The `output` slice. `publicPath` and `libraryTarget` are only set for
some stages. -/
structure Output where
  path : String
  filename : String
  publicPath : Option String
  libraryTarget : Option String
deriving Repr, DecidableEq

/-- The `resolve` slice: extensions, root directories, module directories. -/
structure ResolveConf where
  extensions : List String
  root : List String
  modulesDirectories : List String
deriving Repr, DecidableEq

/-- The postcss option merged into the configuration by the rule builder:
the develop branch merges a function building a four-element chain, the
build-css branch merges a two-element list. -/
inductive Postcss where
  | developChain
  | buildCssList
deriving Repr, DecidableEq

/-- The assembled configuration: every key the composer merges into the
webpack-configurator object. -/
structure BuildConfiguration where
  context : String
  nodeFilename : Bool
  entry : List (String × EntryValue)
  debug : Bool
  profile : Bool
  devtool : Option String
  output : Output
  resolveLoaderRoot : List String
  plugins : List Plugin
  resolve : ResolveConf
  moduleRules : List LoaderRule
  postcss : Option Postcss
deriving Repr, DecidableEq

/-- A javascript value as far as the override-hook contract observes it. -/
inductive JSValue where
  | jnull
  | jundefined
  | jstr (s : String)
  | jnum (n : Int)
  | jbool (b : Bool)
  | jlist (xs : List JSValue)
  | jfunction
  | jobj
  | jconfig (c : BuildConfiguration)

/-- Lodash `_.isObject`: true exactly for values of javascript type
object or function, excluding null — so arrays and functions count as
objects and null, undefined, strings, numbers and booleans do not. -/
def isObject : JSValue → Bool
  | .jnull => false
  | .jundefined => false
  | .jstr _ => false
  | .jnum _ => false
  | .jbool _ => false
  | .jlist _ => true
  | .jfunction => true
  | .jobj => true
  | .jconfig _ => true

/-- The two failure modes of the composer: the throw for an unknown stage
(the message names the normalized stage) and the invariant violation for an
override hook returning a non-object (the message names the stage and the
returned value). -/
inductive ComposeError where
  | stageError (stage : String)
  | contractError (stage : String) (returned : JSValue)

/-- Read-only snapshot of everything the composer reads from outside its
arguments: the site config link prefix (siteDB), the NODE_ENV environment
variable, the page registry (pagesDB), the chunk-name function from the
js-chunk-names module, the directory of the config module, and the optional
gatsby-node override hook discovered at load time. -/
structure Externals where
  linkPrefixStr : String
  nodeEnv : Option String
  pagesRegistry : List Page
  chunkName : String → String
  dirname : String
  hook : Option (BuildConfiguration → String → JSValue)

/-- `suppliedStage === develop-html ? develop : suppliedStage`. -/
def normalizeStage (suppliedStage : String) : String :=
  if suppliedStage = "develop-html" then "develop" else suppliedStage

/-- `process.env.NODE_ENV ? process.env.NODE_ENV : dflt` — the empty string
is falsy in javascript, so it also falls back to the default. -/
def envWithDefault (nodeEnv : Option String) (dflt : String) : String :=
  match nodeEnv with
  | some s => if s = "" then dflt else s
  | none => dflt

/-- `program.prefixLinks ? linkPrefix + "/" : "/"`. -/
def publicPathFor (program : Program) (linkPrefixStr : String) : String :=
  if program.prefixLinks then linkPrefixStr ++ "/" else "/"

/-- Lodash `_.uniq`: distinct elements, keeping first occurrences in order. -/
def uniq (l : List String) : List String :=
  l.foldl (fun acc x => if x ∈ acc then acc else acc ++ [x]) []

/-- The `entry()` planner. Throws (errors) on an unknown normalized stage. -/
def entryPlan (stage : String) (program : Program) (directory : String)
    (webpackPort : Nat) (ext : Externals) :
    Except ComposeError (List (String × EntryValue)) :=
  if stage = "develop" then
    .ok [("commons", .many
      [ "webpack-dev-server/client?http://" ++ program.host ++ ":"
          ++ toString webpackPort ++ "/",
        "webpack/hot/only-dev-server",
        "react-hot-loader/patch",
        directory ++ "/.intermediate-representation/app" ])]
  else if stage = "build-css" then
    .ok [("main", .one (directory ++ "/.intermediate-representation/app"))]
  else if stage = "build-html" then
    .ok [("main", .one (ext.dirname ++ "/static-entry"))]
  else if stage = "build-javascript" then
    .ok [("app", .one (directory ++ "/.intermediate-representation/production-app"))]
  else .error (.stageError stage)

/-- The `output()` planner. Throws (errors) on an unknown normalized stage. -/
def outputPlan (stage : String) (program : Program) (directory : String)
    (webpackPort : Nat) (ext : Externals) : Except ComposeError Output :=
  if stage = "develop" then
    .ok { path := directory, filename := "[name].js",
          publicPath := some ("http://" ++ program.host ++ ":"
            ++ toString webpackPort ++ "/"),
          libraryTarget := none }
  else if stage = "build-css" then
    .ok { path := directory ++ "/public", filename := "bundle-for-css.js",
          publicPath := some (publicPathFor program ext.linkPrefixStr),
          libraryTarget := none }
  else if stage = "build-html" then
    .ok { path := directory ++ "/public", filename := "render-page.js",
          publicPath := none, libraryTarget := some "umd" }
  else if stage = "build-javascript" then
    .ok { path := directory ++ "/public", filename := "[name]-[chunkhash:8].js",
          publicPath := some (publicPathFor program ext.linkPrefixStr),
          libraryTarget := none }
  else .error (.stageError stage)

/-- The `plugins()` planner. For build-javascript the page-template
components come from the pagesDB registry snapshot (NOT from the pages
argument, which only the build-html StaticSiteGeneratorPlugin receives). -/
def pluginsPlan (stage : String) (program : Program) (pages : List Page)
    (ext : Externals) : Except ComposeError (List Plugin) :=
  if stage = "develop" then
    .ok [ .occurenceOrder, .hotModuleReplacement, .noErrors,
          .define (envWithDefault ext.nodeEnv "development")
            program.prefixLinks ext.linkPrefixStr ]
  else if stage = "build-css" then
    .ok [ .define (envWithDefault ext.nodeEnv "production")
            program.prefixLinks ext.linkPrefixStr,
          .extractText "styles.css" ]
  else if stage = "build-html" then
    .ok [ .staticSiteGenerator "render-page.js" pages,
          .define (envWithDefault ext.nodeEnv "production")
            program.prefixLinks ext.linkPrefixStr,
          .extractText "styles.css" ]
  else if stage = "build-javascript" then
    let components :=
      (uniq (ext.pagesRegistry.map Page.component)).map ext.chunkName
    .ok [ .ignoreMomentLocale, .md5Hash, .dedupe, .occurenceOrder,
          .commonsChunk "commons" ("app" :: components) (components.length / 2),
          .define (envWithDefault ext.nodeEnv "production")
            program.prefixLinks ext.linkPrefixStr,
          .extractText "styles.css",
          .offline (publicPathFor program ext.linkPrefixStr),
          .uglify, .statsWriter ]
  else .error (.stageError stage)

/-- The `resolve()` planner (never fails). -/
def resolvePlan (directory : String) (ext : Externals) : ResolveConf :=
  { extensions := ["", ".js", ".jsx", ".cjsx", ".coffee"],
    root := [directory, ext.dirname ++ "/../isomorphic"],
    modulesDirectories :=
      [ directory ++ "/node_modules",
        directory ++ "/node_modules/gatsby/node_modules",
        "node_modules" ] }

/-- The `devtool()` planner: eval for develop, source-map for
build-javascript, false (`none`) for build-html and the default branch. -/
def devtoolPlan (stage : String) : Option String :=
  if stage = "develop" then some "eval"
  else if stage = "build-html" then none
  else if stage = "build-javascript" then some "source-map"
  else none

/-- The loader rules registered before the stage switch in `module()`. -/
def commonRules (program : Program) (babelStage : String) : List LoaderRule :=
  [ { name := "cjsx", test := "\\.cjsx$", excludeTest := none,
      spec := .chain ["coffee", "cjsx"] },
    { name := "js", test := "\\.jsx?$",
      excludeTest := some "(node_modules|bower_components)",
      spec := .babel "babel" (babelConfig program babelStage) },
    { name := "coffee", test := "\\.coffee$", excludeTest := none,
      spec := .single "coffee" },
    { name := "json", test := "\\.json$", excludeTest := none,
      spec := .chain ["json"] },
    { name := "images", test := "\\.(jpe?g|png|gif|svg)(\\?.*)?$",
      excludeTest := none, spec := .chain ["url-loader?limit=10000"] },
    { name := "woff", test := "\\.woff(2)?(\\?v=[0-9]\\.[0-9]\\.[0-9])?$",
      excludeTest := none,
      spec := .single "url-loader?limit=10000&minetype=application/font-woff" },
    { name := "ttf", test := "\\.(ttf)(\\?v=[0-9]\\.[0-9]\\.[0-9])?$",
      excludeTest := none, spec := .single "file-loader" },
    { name := "eot", test := "\\.(eot)(\\?v=[0-9]\\.[0-9]\\.[0-9])?$",
      excludeTest := none, spec := .single "file-loader" } ]

/-- `css?modules&minimize&importLoaders=1`. -/
def cssModulesConf : String := "css?modules&minimize&importLoaders=1"

/-- `cssModulesConf` plus source maps and a debuggable local ident name. -/
def cssModulesConfDev : String :=
  cssModulesConf ++ "&sourceMap&localIdentName=[name]---[local]---[hash:base64:5]"

/-- The `module(config)` rule builder: common rules plus the stage-varying
stylesheet rules and the postcss merge. The default branch returns the
configuration unchanged (common rules only, no postcss). -/
def moduleRulesPlan (stage : String) (program : Program) (babelStage : String) :
    List LoaderRule × Option Postcss :=
  let base := commonRules program babelStage
  if stage = "develop" then
    ( base ++
      [ { name := "css", test := "\\.css$",
          excludeTest := some "\\.module\\.css$",
          spec := .chain ["style", "css", "postcss"] },
        { name := "cssModules", test := "\\.module\\.css$",
          excludeTest := none,
          spec := .chain ["style", cssModulesConfDev, "postcss"] } ],
      some .developChain )
  else if stage = "build-css" then
    ( base ++
      [ { name := "css", test := "\\.css$",
          excludeTest := some "\\.module\\.css$",
          spec := .extractNoFallback ["css?minimize", "postcss"] },
        { name := "cssModules", test := "\\.module\\.css$",
          excludeTest := none,
          spec := .extractFallback "style" [cssModulesConf, "postcss"] } ],
      some .buildCssList )
  else if stage = "build-html" then
    ( base ++
      [ { name := "css", test := "\\.css$",
          excludeTest := some "\\.module\\.css$",
          spec := .single "null" },
        { name := "cssModules", test := "\\.module\\.css$",
          excludeTest := none,
          spec := .extractFallback "style" [cssModulesConf, "postcss"] } ],
      none )
  else if stage = "build-javascript" then
    ( base ++
      [ { name := "css", test := "\\.css$",
          excludeTest := some "\\.module\\.css$",
          spec := .single "null" },
        { name := "cssModules", test := "\\.module\\.css$",
          excludeTest := none,
          spec := .extractFallback "style" [cssModulesConf, "postcss"] } ],
      none )
  else (base, none)

/-- The default assembly: the object merged into the configurator plus the
loader rules added by `module(config)`. Mirrors the evaluation order of the
source: `entry()` is evaluated first (so an unknown stage throws there,
before any other planner result is observable), then `devtool()`,
`output()`, `plugins()` — all three throw the same stage error, so the
whole assembly fails with it and no partial configuration escapes. -/
def assembleConfig (program : Program) (directory : String)
    (suppliedStage : String) (webpackPort : Nat) (pages : List Page)
    (ext : Externals) : Except ComposeError BuildConfiguration := do
  let babelStage := suppliedStage
  let stage := normalizeStage suppliedStage
  let e ← entryPlan stage program directory webpackPort ext
  let o ← outputPlan stage program directory webpackPort ext
  let pl ← pluginsPlan stage program pages ext
  let rules := moduleRulesPlan stage program babelStage
  pure
    { context := directory ++ "/pages",
      nodeFilename := true,
      entry := e,
      debug := true,
      profile := stage == "production",
      devtool := devtoolPlan stage,
      output := o,
      resolveLoaderRoot :=
        [ directory ++ "/loaders",
          ext.dirname ++ "/../loaders",
          directory ++ "/node_modules",
          directory ++ "/node_modules/gatsby/node_modules" ],
      plugins := pl,
      resolve := resolvePlan directory ext,
      moduleRules := rules.1,
      postcss := rules.2 }

/-- The CustomizationGate: when the gatsby-node override hook exists, invoke
it with the assembled configuration and the normalized stage, and demand an
`_.isObject` return value (`invariant(_.isObject(modifiedWebpackConfig))`);
without a hook, return the default assembly unchanged. -/
def applyHook (cfg : BuildConfiguration) (stage : String) :
    Option (BuildConfiguration → String → JSValue) →
    Except ComposeError JSValue
  | some f =>
      let v := f cfg stage
      if isObject v then pure v else .error (.contractError stage v)
  | none => pure (.jconfig cfg)

/-- The exported composer: normalize the stage, assemble the default
configuration, then apply the customization gate. -/
def compose (program : Program) (directory : String) (suppliedStage : String)
    (webpackPort : Nat) (pages : List Page) (ext : Externals) :
    Except ComposeError JSValue := do
  let cfg ← assembleConfig program directory suppliedStage webpackPort pages ext
  applyHook cfg (normalizeStage suppliedStage) ext.hook

/-- The composer called without the port argument: the source declares
`webpackPort = 1500` as the default. -/
def composeDefaultPort (program : Program) (directory : String)
    (suppliedStage : String) (pages : List Page) (ext : Externals) :
    Except ComposeError JSValue :=
  compose program directory suppliedStage 1500 pages ext

/-! ### Observation helpers over the composed value -/

/-- The default-assembled configuration when composition succeeds without an
override hook rewriting it (`none` on errors or foreign hook values). -/
def composedConfig (program : Program) (directory : String)
    (suppliedStage : String) (webpackPort : Nat) (pages : List Page)
    (ext : Externals) : Option BuildConfiguration :=
  match compose program directory suppliedStage webpackPort pages ext with
  | .ok (.jconfig c) => some c
  | _ => none

/-- Look a rule up by the name it was registered under. -/
def findRule (name : String) (rules : List LoaderRule) : Option LoaderRule :=
  rules.find? (fun r => r.name == name)

/-- A loader spec injects styles at runtime when the plain `style` loader
appears in its (non-extract) loader chain. -/
def LoaderSpec.injectsAtRuntime : LoaderSpec → Bool
  | .single l => l == "style"
  | .chain ls => ls.contains "style"
  | .babel _ _ => false
  | .extractNoFallback _ => false
  | .extractFallback _ _ => false

/-- The no-op passthrough rule: the `null` loader. -/
def LoaderSpec.isNoOp : LoaderSpec → Bool
  | .single l => l == "null"
  | _ => false

/-- The rule extracts its output to a physical artifact
(an ExtractTextPlugin.extract wrapper). -/
def LoaderSpec.extractsArtifact : LoaderSpec → Bool
  | .extractNoFallback _ => true
  | .extractFallback _ _ => true
  | _ => false

/-- The minChunks parameter of the first commons-chunk plugin, if any. -/
def pluginMinChunks : Plugin → Option Nat
  | .commonsChunk _ _ m => some m
  | _ => none

/-- The minChunks of the shared-chunk extraction plugin of a configuration. -/
def commonsMinChunks (oc : Option BuildConfiguration) : Option Nat :=
  oc.bind fun c => (c.plugins.filterMap pluginMinChunks).head?

/-- The member chunks of the shared-chunk extraction plugin. -/
def pluginChunks : Plugin → Option (List String)
  | .commonsChunk _ cs _ => some cs
  | _ => none

/-- The chunks list of the shared-chunk extraction plugin of a configuration. -/
def commonsChunksOf (oc : Option BuildConfiguration) : Option (List String) :=
  oc.bind fun c => (c.plugins.filterMap pluginChunks).head?

/-- Whether the first character list is an initial segment of the second. -/
def leadsChars : List Char → List Char → Bool
  | [], _ => true
  | _ :: _, [] => false
  | a :: as, b :: bs => a == b && leadsChars as bs

/-- Whether `tok` occurs as a contiguous run somewhere in `s`. -/
def hasSubstrChars (tok : List Char) : List Char → Bool
  | [] => leadsChars tok []
  | c :: rest => leadsChars tok (c :: rest) || hasSubstrChars tok rest

/-- Whether `tok` occurs as a substring of `s`. -/
def containsTok (s tok : String) : Bool :=
  hasSubstrChars tok.data s.data

/-- The behavior of the named rule for the plain (non-module) stylesheet
test, observed through a projection of its loader spec. -/
def ruleSpec (name : String) (oc : Option BuildConfiguration) :
    Option LoaderSpec :=
  oc.bind fun c => (findRule name c.moduleRules).map LoaderRule.spec

/-- Erase the babel query of a rule, for comparing rule tables up to the
script-compilation configuration. -/
def stripQuery (r : LoaderRule) : LoaderRule :=
  match r.spec with
  | .babel l _ => { r with spec := .single l }
  | _ => r

/-- The babel query recorded on the js rule of a configuration. -/
def jsQuery (oc : Option BuildConfiguration) : Option BabelQuery :=
  oc.bind fun c =>
    match ruleSpec "js" (some c) with
    | some (.babel _ q) => some q
    | _ => none

/-! ### Claims -/

/-- C9: for every valid stage, the composed source-map mode is exactly
`eval` for develop (and its develop-html alias), `source-map` for
build-javascript, and disabled (`false`, here `none`) for build-css and
build-html. -/
theorem devtool_mode_by_stage (p : Program) (d : String) (port : Nat)
    (pages : List Page) (lp : String) (env : Option String) (reg : List Page)
    (cn : String → String) (dn : String) :
    ((composedConfig p d "develop" port pages ⟨lp, env, reg, cn, dn, none⟩).map
        (fun c => c.devtool) = some (some "eval"))
    ∧ ((composedConfig p d "develop-html" port pages ⟨lp, env, reg, cn, dn, none⟩).map
        (fun c => c.devtool) = some (some "eval"))
    ∧ ((composedConfig p d "build-javascript" port pages ⟨lp, env, reg, cn, dn, none⟩).map
        (fun c => c.devtool) = some (some "source-map"))
    ∧ ((composedConfig p d "build-css" port pages ⟨lp, env, reg, cn, dn, none⟩).map
        (fun c => c.devtool) = some none)
    ∧ ((composedConfig p d "build-html" port pages ⟨lp, env, reg, cn, dn, none⟩).map
        (fun c => c.devtool) = some none) :=
  ⟨rfl, rfl, rfl, rfl, rfl⟩

/-- C10: for every valid stage, the composed profile flag is false: it is
set by comparing the normalized stage to the token `production`, which is
never one of the five recognized stage names. -/
theorem profile_always_false (p : Program) (d : String) (port : Nat)
    (pages : List Page) (lp : String) (env : Option String) (reg : List Page)
    (cn : String → String) (dn : String) :
    ((composedConfig p d "develop" port pages ⟨lp, env, reg, cn, dn, none⟩).map
        (fun c => c.profile) = some false)
    ∧ ((composedConfig p d "develop-html" port pages ⟨lp, env, reg, cn, dn, none⟩).map
        (fun c => c.profile) = some false)
    ∧ ((composedConfig p d "build-css" port pages ⟨lp, env, reg, cn, dn, none⟩).map
        (fun c => c.profile) = some false)
    ∧ ((composedConfig p d "build-html" port pages ⟨lp, env, reg, cn, dn, none⟩).map
        (fun c => c.profile) = some false)
    ∧ ((composedConfig p d "build-javascript" port pages ⟨lp, env, reg, cn, dn, none⟩).map
        (fun c => c.profile) = some false) :=
  ⟨rfl, rfl, rfl, rfl, rfl⟩

/-- C4: two calls to compose with identical program settings, directory,
stage, port, page list and external snapshots yield structurally identical
results — the composer reads nothing beyond its arguments and the supplied
snapshot (no hidden counters, timestamps or random ordering). -/
theorem compose_deterministic (p₁ p₂ : Program) (d₁ d₂ : String)
    (s₁ s₂ : String) (port₁ port₂ : Nat) (pages₁ pages₂ : List Page)
    (ext₁ ext₂ : Externals) (hp : p₁ = p₂) (hd : d₁ = d₂) (hs : s₁ = s₂)
    (hport : port₁ = port₂) (hpages : pages₁ = pages₂) (hext : ext₁ = ext₂) :
    compose p₁ d₁ s₁ port₁ pages₁ ext₁ = compose p₂ d₂ s₂ port₂ pages₂ ext₂ := by
  subst hp hd hs hport hpages hext
  rfl

/-- Witness for C4 at a concrete input. -/
theorem compose_deterministic_witness :
    compose ⟨"localhost", false⟩ "/site" "develop" 1500 []
        ⟨"", none, [], (fun s => s), "/gatsby/lib/utils", none⟩
      = compose ⟨"localhost", false⟩ "/site" "develop" 1500 []
        ⟨"", none, [], (fun s => s), "/gatsby/lib/utils", none⟩ :=
  compose_deterministic _ _ _ _ _ _ _ _ _ _ _ _
    rfl rfl rfl rfl rfl rfl

/-- C7: for stage develop the composed output public path is
`http://` ++ host ++ `:` ++ port ++ `/`; with host localhost and the
default port this is `http://localhost:1500/`; omitting the port argument
defaults it to 1500. -/
theorem develop_public_path (host : String) (plinks : Bool) (d : String)
    (port : Nat) (pages : List Page) (lp : String) (env : Option String)
    (reg : List Page) (cn : String → String) (dn : String) :
    ((composedConfig ⟨host, plinks⟩ d "develop" port pages
        ⟨lp, env, reg, cn, dn, none⟩).bind (fun c => c.output.publicPath)
      = some ("http://" ++ host ++ ":" ++ toString port ++ "/"))
    ∧ ((composedConfig ⟨"localhost", plinks⟩ d "develop" 1500 pages
        ⟨lp, env, reg, cn, dn, none⟩).bind (fun c => c.output.publicPath)
      = some "http://localhost:1500/")
    ∧ composeDefaultPort ⟨host, plinks⟩ d "develop" pages
        ⟨lp, env, reg, cn, dn, none⟩
      = compose ⟨host, plinks⟩ d "develop" 1500 pages
        ⟨lp, env, reg, cn, dn, none⟩ :=
  ⟨rfl, rfl, rfl⟩

/-- C6: for every input, the build-javascript output filename contains the
content-hash placeholder token, while develop, build-css and build-html use
fixed filenames containing no hash token at all. -/
theorem output_filename_hashing (p : Program) (d : String) (port : Nat)
    (pages : List Page) (lp : String) (env : Option String) (reg : List Page)
    (cn : String → String) (dn : String) :
    ((composedConfig p d "build-javascript" port pages ⟨lp, env, reg, cn, dn, none⟩).map
        (fun c => c.output.filename) = some "[name]-[chunkhash:8].js")
    ∧ ((composedConfig p d "build-javascript" port pages ⟨lp, env, reg, cn, dn, none⟩).map
        (fun c => containsTok c.output.filename "[chunkhash") = some true)
    ∧ ((composedConfig p d "develop" port pages ⟨lp, env, reg, cn, dn, none⟩).map
        (fun c => c.output.filename) = some "[name].js")
    ∧ ((composedConfig p d "develop" port pages ⟨lp, env, reg, cn, dn, none⟩).map
        (fun c => containsTok c.output.filename "hash") = some false)
    ∧ ((composedConfig p d "build-css" port pages ⟨lp, env, reg, cn, dn, none⟩).map
        (fun c => c.output.filename) = some "bundle-for-css.js")
    ∧ ((composedConfig p d "build-css" port pages ⟨lp, env, reg, cn, dn, none⟩).map
        (fun c => containsTok c.output.filename "hash") = some false)
    ∧ ((composedConfig p d "build-html" port pages ⟨lp, env, reg, cn, dn, none⟩).map
        (fun c => c.output.filename) = some "render-page.js")
    ∧ ((composedConfig p d "build-html" port pages ⟨lp, env, reg, cn, dn, none⟩).map
        (fun c => containsTok c.output.filename "hash") = some false) :=
  ⟨rfl, rfl, rfl, rfl, rfl, rfl, rfl, rfl⟩

/-- C5: for every input, the build-css and build-html configurations carry
no runtime style-injection rule for plain (non-module) stylesheets, develop
always carries one; for build-html and build-javascript the plain rule is
the no-op `null` passthrough while the scoped (module) rule still extracts
to a physical artifact. -/
theorem stylesheet_rules_by_stage (p : Program) (d : String) (port : Nat)
    (pages : List Page) (lp : String) (env : Option String) (reg : List Page)
    (cn : String → String) (dn : String) :
    ((ruleSpec "css" (composedConfig p d "build-css" port pages
        ⟨lp, env, reg, cn, dn, none⟩)).map LoaderSpec.injectsAtRuntime
      = some false)
    ∧ ((ruleSpec "css" (composedConfig p d "build-html" port pages
        ⟨lp, env, reg, cn, dn, none⟩)).map LoaderSpec.injectsAtRuntime
      = some false)
    ∧ ((ruleSpec "css" (composedConfig p d "develop" port pages
        ⟨lp, env, reg, cn, dn, none⟩)).map LoaderSpec.injectsAtRuntime
      = some true)
    ∧ ((ruleSpec "css" (composedConfig p d "build-html" port pages
        ⟨lp, env, reg, cn, dn, none⟩)).map LoaderSpec.isNoOp = some true)
    ∧ ((ruleSpec "css" (composedConfig p d "build-javascript" port pages
        ⟨lp, env, reg, cn, dn, none⟩)).map LoaderSpec.isNoOp = some true)
    ∧ ((ruleSpec "cssModules" (composedConfig p d "build-html" port pages
        ⟨lp, env, reg, cn, dn, none⟩)).map LoaderSpec.extractsArtifact
      = some true)
    ∧ ((ruleSpec "cssModules" (composedConfig p d "build-javascript" port pages
        ⟨lp, env, reg, cn, dn, none⟩)).map LoaderSpec.extractsArtifact
      = some true) :=
  ⟨rfl, rfl, rfl, rfl, rfl, rfl, rfl⟩

/-- C8: composing for develop-html yields the same entry, output, plugin,
resolution and source-map slices as composing for develop, and the rule
tables agree once the script-compilation (babel) query is erased; that query
records the unnormalized stage, and (modelled from the spec) the live-reload
react-hmre wiring is present for develop and absent for develop-html. -/
theorem develop_html_alias (p : Program) (d : String) (port : Nat)
    (pages : List Page) (lp : String) (env : Option String) (reg : List Page)
    (cn : String → String) (dn : String) :
    ((composedConfig p d "develop-html" port pages ⟨lp, env, reg, cn, dn, none⟩).map
        (fun c => c.entry)
      = (composedConfig p d "develop" port pages ⟨lp, env, reg, cn, dn, none⟩).map
        (fun c => c.entry))
    ∧ ((composedConfig p d "develop-html" port pages ⟨lp, env, reg, cn, dn, none⟩).map
        (fun c => c.output)
      = (composedConfig p d "develop" port pages ⟨lp, env, reg, cn, dn, none⟩).map
        (fun c => c.output))
    ∧ ((composedConfig p d "develop-html" port pages ⟨lp, env, reg, cn, dn, none⟩).map
        (fun c => c.plugins)
      = (composedConfig p d "develop" port pages ⟨lp, env, reg, cn, dn, none⟩).map
        (fun c => c.plugins))
    ∧ ((composedConfig p d "develop-html" port pages ⟨lp, env, reg, cn, dn, none⟩).map
        (fun c => c.resolve)
      = (composedConfig p d "develop" port pages ⟨lp, env, reg, cn, dn, none⟩).map
        (fun c => c.resolve))
    ∧ ((composedConfig p d "develop-html" port pages ⟨lp, env, reg, cn, dn, none⟩).map
        (fun c => c.resolveLoaderRoot)
      = (composedConfig p d "develop" port pages ⟨lp, env, reg, cn, dn, none⟩).map
        (fun c => c.resolveLoaderRoot))
    ∧ ((composedConfig p d "develop-html" port pages ⟨lp, env, reg, cn, dn, none⟩).map
        (fun c => c.devtool)
      = (composedConfig p d "develop" port pages ⟨lp, env, reg, cn, dn, none⟩).map
        (fun c => c.devtool))
    ∧ ((composedConfig p d "develop-html" port pages ⟨lp, env, reg, cn, dn, none⟩).map
        (fun c => c.postcss)
      = (composedConfig p d "develop" port pages ⟨lp, env, reg, cn, dn, none⟩).map
        (fun c => c.postcss))
    ∧ ((composedConfig p d "develop-html" port pages ⟨lp, env, reg, cn, dn, none⟩).map
        (fun c => c.moduleRules.map stripQuery)
      = (composedConfig p d "develop" port pages ⟨lp, env, reg, cn, dn, none⟩).map
        (fun c => c.moduleRules.map stripQuery))
    ∧ (jsQuery (composedConfig p d "develop-html" port pages ⟨lp, env, reg, cn, dn, none⟩)
      = some (babelConfig p "develop-html"))
    ∧ (jsQuery (composedConfig p d "develop" port pages ⟨lp, env, reg, cn, dn, none⟩)
      = some (babelConfig p "develop"))
    ∧ ((jsQuery (composedConfig p d "develop-html" port pages ⟨lp, env, reg, cn, dn, none⟩)).map
        (fun q => q.reactHmre) = some false)
    ∧ ((jsQuery (composedConfig p d "develop" port pages ⟨lp, env, reg, cn, dn, none⟩)).map
        (fun q => q.reactHmre) = some true) :=
  ⟨rfl, rfl, rfl, rfl, rfl, rfl, rfl, rfl, rfl, rfl, rfl, rfl⟩

/-- C1 counterexample: with an empty page registry, supplying pages with two
distinct components to compose yields a shared-chunk minChunks of 0, while
the claim (floor of distinct supplied components over 2) demands 1 — the
plugin is parameterized from the pagesDB registry, not the pages argument. -/
theorem commons_minChunks_claim_counterexample :
    commonsMinChunks (composedConfig ⟨"localhost", false⟩ "/site"
        "build-javascript" 1500 [⟨"/a", "A"⟩, ⟨"/b", "B"⟩, ⟨"/a2", "A"⟩]
        ⟨"", none, [], (fun s => s), "/gatsby/lib/utils", none⟩)
      = some 0
    ∧ (uniq (List.map Page.component
        ([⟨"/a", "A"⟩, ⟨"/b", "B"⟩, ⟨"/a2", "A"⟩] : List Page))).length / 2
      = 1 :=
  ⟨rfl, rfl⟩

/-- C1 amended: for stage build-javascript the shared-chunk extraction
plugin has minChunks equal to floor(n / 2) where n is the number of
distinct component module paths in the external page registry snapshot
(pagesDB) — independent of the supplied pages argument — and its member
chunks are the app entry plus one synthetic chunk name per distinct
registry component. -/
theorem commons_minChunks_from_registry (p : Program) (d : String)
    (port : Nat) (pages : List Page) (lp : String) (env : Option String)
    (reg : List Page) (cn : String → String) (dn : String) :
    commonsMinChunks (composedConfig p d "build-javascript" port pages
        ⟨lp, env, reg, cn, dn, none⟩)
      = some ((uniq (reg.map Page.component)).length / 2)
    ∧ commonsChunksOf (composedConfig p d "build-javascript" port pages
        ⟨lp, env, reg, cn, dn, none⟩)
      = some ("app" :: (uniq (reg.map Page.component)).map cn) := by
  constructor
  · show some (((uniq (reg.map Page.component)).map cn).length / 2) = _
    rw [List.length_map]
  · rfl

/-- C2: any stage token outside the five recognized names makes compose
fail with the stage error naming that token; no configuration value is
produced. -/
theorem unknown_stage_fails (p : Program) (d : String) (s : String)
    (port : Nat) (pages : List Page) (ext : Externals)
    (h1 : s ≠ "develop") (h2 : s ≠ "develop-html") (h3 : s ≠ "build-css")
    (h4 : s ≠ "build-html") (h5 : s ≠ "build-javascript") :
    compose p d s port pages ext
      = Except.error (ComposeError.stageError s) := by
  have hn : normalizeStage s = s := if_neg h2
  have he : entryPlan s p d port ext
      = Except.error (ComposeError.stageError s) := by
    unfold entryPlan
    rw [if_neg h1, if_neg h3, if_neg h4, if_neg h5]
  unfold compose assembleConfig
  rw [hn]
  simp only [he]
  rfl

/-- Witness for C2 at the concrete token `production`. -/
theorem unknown_stage_fails_witness :
    ("production" : String) ≠ "develop"
    ∧ compose ⟨"localhost", false⟩ "/site" "production" 1500 []
        ⟨"", none, [], (fun s => s), "/gatsby/lib/utils", none⟩
      = Except.error (ComposeError.stageError "production") :=
  ⟨by decide,
    unknown_stage_fails _ _ _ _ _ _ (by decide) (by decide) (by decide)
      (by decide) (by decide)⟩

/-- C3 counterexample: an override hook returning a list (the empty array)
does NOT fail validation — lodash isObject counts arrays as objects, so the
invariant passes and compose returns the list as the final configuration. -/
theorem hook_list_passes_counterexample :
    compose ⟨"localhost", false⟩ "/site" "develop" 1500 []
        ⟨"", none, [], (fun s => s), "/gatsby/lib/utils",
          some (fun _ _ => JSValue.jlist [])⟩
      = Except.ok (JSValue.jlist []) :=
  rfl

/-- C3 amended: for every valid stage, an override hook whose return value
fails the lodash isObject test (null, undefined, strings, numbers,
booleans) makes compose fail with the contract error naming the normalized
stage and the received value, while a value passing that test (objects, and
also arrays and functions, which lodash counts as objects) is returned as
the final configuration; in particular null and strings always fail and
lists always pass. -/
theorem hook_contract (p : Program) (d : String) (port : Nat)
    (pages : List Page) (lp : String) (env : Option String) (reg : List Page)
    (cn : String → String) (dn : String) (v : JSValue) (s : String)
    (hs : s ∈ ["develop", "develop-html", "build-css", "build-html",
        "build-javascript"]) :
    (compose p d s port pages ⟨lp, env, reg, cn, dn, some (fun _ _ => v)⟩
      = if isObject v then Except.ok v
        else Except.error (ComposeError.contractError (normalizeStage s) v))
    ∧ isObject JSValue.jnull = false
    ∧ (∀ str, isObject (JSValue.jstr str) = false)
    ∧ (∀ xs, isObject (JSValue.jlist xs) = true) := by
  refine ⟨?_, rfl, fun _ => rfl, fun _ => rfl⟩
  fin_cases hs <;> rfl

/-- Witness for C3 (amended) at stage build-css with a null return value. -/
theorem hook_contract_witness :
    ("build-css" : String) ∈ ["develop", "develop-html", "build-css",
        "build-html", "build-javascript"]
    ∧ ((compose ⟨"localhost", false⟩ "/site" "build-css" 1500 []
        ⟨"", none, [], (fun s => s), "/gatsby/lib/utils",
          some (fun _ _ => JSValue.jnull)⟩
      = if isObject JSValue.jnull then Except.ok JSValue.jnull
        else Except.error (ComposeError.contractError
          (normalizeStage "build-css") JSValue.jnull))
    ∧ isObject JSValue.jnull = false
    ∧ (∀ str, isObject (JSValue.jstr str) = false)
    ∧ (∀ xs, isObject (JSValue.jlist xs) = true)) :=
  ⟨by decide,
    hook_contract ⟨"localhost", false⟩ "/site" 1500 [] "" none []
      (fun s => s) "/gatsby/lib/utils" JSValue.jnull "build-css"
      (by decide)⟩

end GatsbyWebpack
